import Mathlib

/-!
Verification development for the procedural rose geometry system.

The source is a set of React/three.js components that procedurally generate
rose models: a seeded PRNG (`mulberry32`), petal shape/deformation code,
whorl and phyllotaxis petal layout engines, and stem/leaf/thorn attachment
code.  This file gives a shallow embedding of the numeric core of that code
over exact rationals (for the PRNG and index arithmetic) and real numbers
(for the geometry), and proves or refutes the specification claims about it.

Floating-point arithmetic is modelled by exact real/rational arithmetic;
JavaScript operations that can produce non-finite values (division, `Math.pow`
with a negative base) are modelled as `Option`-valued functions, and the
non-finite JavaScript numbers (`NaN`, `±Infinity`) that can be passed as a
PRNG seed are modelled by the `none` case of an `Option ℚ`.
-/

namespace Rose

/-! ### JavaScript number and bit-pattern model -/

/-- A JavaScript number as a PRNG seed: `some q` is a finite double with exact
value `q`; `none` stands for the non-finite values (`NaN`, `±Infinity`).  Both
`NaN` and `±Infinity` are absorbed by addition and are mapped to the bit
pattern `0` by the `ToUint32`/`ToInt32` coercions, which is all the code
observes about them. -/
abbrev JSNum : Type := Option ℚ

/-- JavaScript truncation toward zero, the integer part taken by `ToUint32`. -/
def jsTrunc (q : ℚ) : ℤ := if 0 ≤ q then ⌊q⌋ else ⌈q⌉

/-- ECMAScript `ToUint32` on a finite value: truncate toward zero, then reduce
modulo `2^32` to a non-negative representative; non-finite values map to 0. -/
def jsToUint32 : JSNum → ℕ
  | none => 0
  | some q => (jsTrunc q % (2 ^ 32 : ℤ)).toNat

/-- The `Math.imul`: 32-bit wrapping multiplication, on bit patterns. -/
def imul32 (a b : ℕ) : ℕ := a * b % 2 ^ 32

/-- One draw of `mulberry32` (`src/unnamed/part_002` lines 248-253, duplicated
in `part_000` and the other components) as a function of the 32-bit pattern
`p` of the state `t`.  All of `^`, `|`, `>>>` and `Math.imul` coerce their
operands to 32 bits, and the signed (`ToInt32`) and unsigned (`ToUint32`)
views of a value share the same bit pattern, so the whole body is computed on
patterns; the final `>>> 0` reduction and the division by `4294967296 = 2^32`
produce a rational in `[0, 1)`. -/
def mulberryOut (p : ℕ) : ℕ :=
  let r1 := imul32 (p ^^^ (p >>> 15)) (p ||| 1)
  let r2 := r1 ^^^ ((r1 + imul32 (r1 ^^^ (r1 >>> 7)) (r1 ||| 61)) % 2 ^ 32)
  (r2 ^^^ (r2 >>> 14)) % 2 ^ 32

/-- The rational value of one draw: the 32-bit output over `2^32`. -/
def mulberryBody (p : ℕ) : ℚ := (mulberryOut p : ℚ) / 4294967296

/-- The seeded generator `mulberry32(seed)`: draw `n` (counting from 0) is the
value returned by the `(n+1)`-st call of the returned closure.  The closure
adds `0x6d2b79f5` to its state `t` before producing each draw, so draw `n`
is computed from the state `seed + (n+1) * 0x6d2b79f5`; addition leaves a
non-finite state non-finite.  There is no validation of the seed anywhere in
the source: every `JSNum`, finite or not, integer or not, is accepted. -/
def mulberry32 (seed : JSNum) (n : ℕ) : ℚ :=
  mulberryBody (jsToUint32 (Option.map (fun t => t + (n + 1) * 0x6d2b79f5) seed))

/-- The PRNG stream as real numbers, as consumed by the layout engines. -/
noncomputable def mulberryR (seed : JSNum) (n : ℕ) : ℝ := ((mulberry32 seed n : ℚ) : ℝ)

/-! ### Vectors and quaternions (`THREE.Vector3`, `THREE.Quaternion`) -/

/-- A 3-component vector, `THREE.Vector3`. -/
structure V3 where
  x : ℝ
  y : ℝ
  z : ℝ

noncomputable def V3.add (a b : V3) : V3 := ⟨a.x + b.x, a.y + b.y, a.z + b.z⟩

noncomputable def V3.smul (s : ℝ) (v : V3) : V3 := ⟨s * v.x, s * v.y, s * v.z⟩

noncomputable def V3.dot (a b : V3) : ℝ := a.x * b.x + a.y * b.y + a.z * b.z

noncomputable def V3.cross (a b : V3) : V3 :=
  ⟨a.y * b.z - a.z * b.y, a.z * b.x - a.x * b.z, a.x * b.y - a.y * b.x⟩

noncomputable def V3.lengthSq (v : V3) : ℝ := v.x * v.x + v.y * v.y + v.z * v.z

noncomputable def V3.length (v : V3) : ℝ := Real.sqrt v.lengthSq

/-- The `THREE.Vector3.normalize`: `divideScalar(length || 1)`, so the zero vector
is left unchanged rather than producing `NaN`. -/
noncomputable def V3.normalize (v : V3) : V3 :=
  V3.smul (1 / (if v.length = 0 then 1 else v.length)) v

/-- The `THREE.Vector3.lerp(v, alpha)`: `this + (v - this) * alpha`, componentwise. -/
noncomputable def V3.lerp (a b : V3) (alpha : ℝ) : V3 :=
  ⟨a.x + (b.x - a.x) * alpha, a.y + (b.y - a.y) * alpha, a.z + (b.z - a.z) * alpha⟩

/-- The canonical up vector `new THREE.Vector3(0, 1, 0)`. -/
noncomputable def upV3 : V3 := ⟨0, 1, 0⟩

/-- The `THREE.MathUtils.clamp(value, lo, hi) = Math.max(lo, Math.min(hi, value))`. -/
noncomputable def clamp (value lo hi : ℝ) : ℝ := max lo (min hi value)

/-- The `THREE.Quaternion.setFromAxisAngle(axis, angle)` (axis assumed normalized):
the quaternion `(cos(angle/2), sin(angle/2) · axis)`.  Components of
`Quaternion ℝ` are ordered `(re, imI, imJ, imK) = (w, x, y, z)`; Mathlib's
quaternion product coincides with `THREE.Quaternion.multiplyQuaternions`. -/
noncomputable def quatAxisAngle (axis : V3) (angle : ℝ) : Quaternion ℝ :=
  ⟨Real.cos (angle / 2), Real.sin (angle / 2) * axis.x,
    Real.sin (angle / 2) * axis.y, Real.sin (angle / 2) * axis.z⟩

/-- The `THREE.Quaternion.length()`. -/
noncomputable def quatLength (q : Quaternion ℝ) : ℝ :=
  Real.sqrt (q.re * q.re + q.imI * q.imI + q.imJ * q.imJ + q.imK * q.imK)

/-- The `THREE.Quaternion.normalize()`: a zero-length quaternion becomes the
identity `(x,y,z,w) = (0,0,0,1)`; otherwise divide by the length. -/
noncomputable def quatNormalize (q : Quaternion ℝ) : Quaternion ℝ :=
  if quatLength q = 0 then ⟨1, 0, 0, 0⟩ else (1 / quatLength q) • q

/-- The `Number.EPSILON = 2^(-52)`. -/
noncomputable def numberEpsilon : ℝ := 1 / 2 ^ 52

/-- The `THREE.Quaternion.setFromUnitVectors(vFrom, vTo)`: for
`r = vFrom·vTo + 1 ≥ Number.EPSILON` the quaternion `(r, vFrom × vTo)`
normalized; in the near-antiparallel case an arbitrary orthogonal axis with
`w = 0`, normalized. -/
noncomputable def quatFromUnitVectors (vFrom vTo : V3) : Quaternion ℝ :=
  quatNormalize
    (if vFrom.dot vTo + 1 < numberEpsilon then
      (if |vFrom.x| > |vFrom.z| then ⟨0, -vFrom.y, vFrom.x, 0⟩
        else ⟨0, 0, -vFrom.z, vFrom.y⟩)
    else
      ⟨vFrom.dot vTo + 1, (vFrom.cross vTo).x, (vFrom.cross vTo).y, (vFrom.cross vTo).z⟩)

/-- The `THREE.Vector3.applyQuaternion(q)`:
`t = 2 (q_v × v)`, result `v + q_w t + q_v × t`. -/
noncomputable def quatApplyV3 (q : Quaternion ℝ) (v : V3) : V3 :=
  let qv : V3 := ⟨q.imI, q.imJ, q.imK⟩
  let t := V3.smul 2 (qv.cross v)
  v.add ((V3.smul q.re t).add (qv.cross t))

/-! ### Petal instances and whorl layout engines -/

/-- One emitted petal instance.  The source converts `finalQuat` to Euler
angles before storing it; the model stores the quaternion itself, which is the
same orientation datum. -/
structure PetalConfig where
  position : V3
  quat : Quaternion ℝ
  scale : ℝ
  geometryIndex : ℤ
  materialIndex : ℤ
  openness : ℝ

/-- One whorl row `{ count, radius, height, tilt, scale, layer }`.  The numeric
literals of the source are decimal, hence exact rationals. -/
structure Whorl where
  count : ℕ
  radius : ℚ
  height : ℚ
  tilt : ℚ
  scale : ℚ
  layer : ℕ

/-- The whorl table of `RealisticRoseBud` (`src/unnamed/part_000` lines 386-406). -/
def realisticWhorls : List Whorl :=
  [⟨3, 0.015, 0.24, 0.08, 0.08, 0⟩,
   ⟨4, 0.025, 0.23, 0.12, 0.10, 0⟩,
   ⟨5, 0.038, 0.21, 0.18, 0.13, 0⟩,
   ⟨5, 0.052, 0.19, 0.25, 0.17, 1⟩,
   ⟨6, 0.068, 0.17, 0.32, 0.21, 1⟩,
   ⟨7, 0.085, 0.15, 0.40, 0.25, 1⟩,
   ⟨7, 0.105, 0.12, 0.48, 0.30, 2⟩,
   ⟨8, 0.125, 0.09, 0.55, 0.35, 2⟩,
   ⟨8, 0.148, 0.06, 0.62, 0.40, 3⟩,
   ⟨9, 0.175, 0.03, 0.70, 0.45, 3⟩,
   ⟨9, 0.205, 0.00, 0.78, 0.50, 4⟩,
   ⟨10, 0.238, -0.03, 0.85, 0.54, 4⟩,
   ⟨10, 0.275, -0.06, 0.92, 0.56, 5⟩,
   ⟨11, 0.315, -0.09, 0.97, 0.58, 5⟩]

/-- The `realisticPetalGeometries` holds 6 layers × 4 variants = 24 entries. -/
def realisticGeometryCount : ℕ := 24

/-- The `realisticPetalMaterials` holds 5 entries. -/
def realisticMaterialCount : ℕ := 5

/-- Petal azimuth in `RealisticRoseBud`:
`(i / count) * 2π + whorlOffset + (rand() - 0.5) * 0.12`. -/
noncomputable def realisticAngle (w : Whorl) (offset : ℝ) (i : ℕ) (r0 : ℝ) : ℝ :=
  (i : ℝ) / (w.count : ℝ) * Real.pi * 2 + offset + (r0 - 0.5) * 0.12

/-- The `petalDir` of `RealisticRoseBud` (lines 429-439): blend of up and radial by
tilt, with a downward term for layers ≥ 4, normalized. -/
noncomputable def realisticPetalDir (w : Whorl) (angle : ℝ) : V3 :=
  let radial : V3 := ⟨Real.cos angle, 0, Real.sin angle⟩
  let upComponent := Real.cos ((w.tilt : ℝ) * Real.pi * 0.5)
  let outComponent := Real.sin ((w.tilt : ℝ) * Real.pi * 0.5)
  let downComponent : ℝ := if 4 ≤ w.layer then ((w.tilt : ℝ) - 0.8) * 0.35 else 0
  V3.normalize ⟨radial.x * outComponent, upComponent - downComponent, radial.z * outComponent⟩

/-- The `baseQuat` (line 441): rotate canonical up onto the petal direction. -/
noncomputable def realisticBaseQuat (w : Whorl) (angle : ℝ) : Quaternion ℝ :=
  quatFromUnitVectors upV3 (realisticPetalDir w angle)

/-- The `rollQuat` (lines 443-444): rotate about the petal direction by
`angle + π + (rand() - 0.5) * 0.25`. -/
noncomputable def realisticRollQuat (w : Whorl) (angle r4 : ℝ) : Quaternion ℝ :=
  quatAxisAngle (realisticPetalDir w angle) (angle + Real.pi + (r4 - 0.5) * 0.25)

/-- The `finalQuat` (line 446): `finalQuat.copy(rollQuat).multiply(baseQuat)`,
i.e. `rollQuat * baseQuat`. -/
noncomputable def realisticFinalQuat (w : Whorl) (angle r4 : ℝ) : Quaternion ℝ :=
  realisticRollQuat w angle r4 * realisticBaseQuat w angle

/-- Geometry variant selection (lines 450-453):
`min(layer * 4 + floor(rand() * 4), 24 - 1)`. -/
noncomputable def realisticGeometryIndex (w : Whorl) (r5 : ℝ) : ℤ :=
  min ((w.layer : ℤ) * 4 + ⌊r5 * 4⌋) ((realisticGeometryCount : ℤ) - 1)

/-- Material selection (lines 456-459):
`min(5 - 1, floor((layer / 5) * 5))`. -/
noncomputable def realisticMaterialIndex (w : Whorl) : ℤ :=
  min ((realisticMaterialCount : ℤ) - 1) ⌊(w.layer : ℝ) / 5 * (realisticMaterialCount : ℝ)⌋

/-- One petal of `RealisticRoseBud` (loop body, lines 421-472); the six PRNG
draws of the iteration are `rand k, …, rand (k+5)` in source order
(angle, radius, height, scale, roll, geometry). -/
noncomputable def realisticPetal (w : Whorl) (offset : ℝ) (i : ℕ) (rand : ℕ → ℝ) (k : ℕ) :
    PetalConfig :=
  let angle := realisticAngle w offset i (rand k)
  let radiusVar := (w.radius : ℝ) * (0.94 + rand (k + 1) * 0.12)
  let heightVar := (w.height : ℝ) + (rand (k + 2) - 0.5) * 0.015
  let scaleVar := (w.scale : ℝ) * (0.92 + rand (k + 3) * 0.16)
  { position := ⟨Real.cos angle * radiusVar, heightVar, Real.sin angle * radiusVar⟩
    quat := realisticFinalQuat w angle (rand (k + 4))
    scale := scaleVar
    geometryIndex := realisticGeometryIndex w (rand (k + 5))
    materialIndex := realisticMaterialIndex w
    openness := (w.tilt : ℝ) }

/-- All petals of one whorl, consuming 6 draws per petal. -/
noncomputable def realisticWhorlPetals (w : Whorl) (offset : ℝ) (rand : ℕ → ℝ) (k : ℕ) :
    List PetalConfig :=
  (List.range w.count).map fun i => realisticPetal w offset i rand (k + 6 * i)

/-- The whorl fold of `RealisticRoseBud`: before each whorl the cumulative
angular offset is advanced by `π / count * 0.8` (line 419). -/
noncomputable def realisticGenAux (rand : ℕ → ℝ) : List Whorl → ℝ → ℕ → List PetalConfig
  | [], _, _ => []
  | w :: ws, offset, k =>
    realisticWhorlPetals w (offset + Real.pi / (w.count : ℝ) * 0.8) rand k ++
      realisticGenAux rand ws (offset + Real.pi / (w.count : ℝ) * 0.8) (k + 6 * w.count)

/-- The full petal list of `RealisticRoseBud`, seeded with `mulberry32(42)`. -/
noncomputable def realisticRosePetals : List PetalConfig :=
  realisticGenAux (mulberryR (some 42)) realisticWhorls 0 0

/-- The whorl table of `RoseBud` in `GlassRose.tsx` (lines 566-581). -/
def glassWhorls : List Whorl :=
  [⟨3, 0.02, 0.22, 0.15, 0.12, 0⟩,
   ⟨4, 0.04, 0.20, 0.25, 0.16, 0⟩,
   ⟨5, 0.07, 0.17, 0.35, 0.22, 1⟩,
   ⟨6, 0.10, 0.14, 0.45, 0.28, 1⟩,
   ⟨7, 0.14, 0.10, 0.55, 0.35, 2⟩,
   ⟨8, 0.18, 0.06, 0.65, 0.42, 2⟩,
   ⟨8, 0.23, 0.02, 0.78, 0.50, 3⟩,
   ⟨9, 0.28, -0.02, 0.88, 0.55, 3⟩,
   ⟨10, 0.34, -0.06, 0.95, 0.58, 4⟩]

/-- The `petalGeometries` of `GlassRose.tsx` holds 5 layers × 3 variants = 15 entries. -/
def glassGeometryCount : ℕ := 15

/-- The `petalMaterials` of `GlassRose.tsx` holds 3 entries. -/
def glassMaterialCount : ℕ := 3

/-- Petal azimuth in the glass `RoseBud`: `(i / count) * 2π + offset + (rand() - 0.5) * 0.15`. -/
noncomputable def glassAngle (w : Whorl) (offset : ℝ) (i : ℕ) (r0 : ℝ) : ℝ :=
  (i : ℝ) / (w.count : ℝ) * Real.pi * 2 + offset + (r0 - 0.5) * 0.15

/-- The `petalDir` of the glass `RoseBud` (lines 608-621): downward term for layers ≥ 3. -/
noncomputable def glassPetalDir (w : Whorl) (angle : ℝ) : V3 :=
  let radial : V3 := ⟨Real.cos angle, 0, Real.sin angle⟩
  let upComponent := Real.cos ((w.tilt : ℝ) * Real.pi * 0.5)
  let outComponent := Real.sin ((w.tilt : ℝ) * Real.pi * 0.5)
  let downComponent : ℝ := if 3 ≤ w.layer then ((w.tilt : ℝ) - 0.7) * 0.3 else 0
  V3.normalize ⟨radial.x * outComponent, upComponent - downComponent, radial.z * outComponent⟩

/-- The `baseQuat` (line 623). -/
noncomputable def glassBaseQuat (w : Whorl) (angle : ℝ) : Quaternion ℝ :=
  quatFromUnitVectors upV3 (glassPetalDir w angle)

/-- The `rollQuat` (lines 626-627): roll by `angle + π + (rand() - 0.5) * 0.3`. -/
noncomputable def glassRollQuat (w : Whorl) (angle r4 : ℝ) : Quaternion ℝ :=
  quatAxisAngle (glassPetalDir w angle) (angle + Real.pi + (r4 - 0.5) * 0.3)

/-- The `finalQuat` (line 629): `rollQuat * baseQuat`. -/
noncomputable def glassFinalQuat (w : Whorl) (angle r4 : ℝ) : Quaternion ℝ :=
  glassRollQuat w angle r4 * glassBaseQuat w angle

/-- Geometry selection (lines 633 and 650): `layer * 3 + floor(rand() * 3)`,
clamped at push time with `min(·, 15 - 1)`. -/
noncomputable def glassGeometryIndex (w : Whorl) (r5 : ℝ) : ℤ :=
  min ((w.layer : ℤ) * 3 + ⌊r5 * 3⌋) ((glassGeometryCount : ℤ) - 1)

/-- Material selection (lines 636-640): `min(3 - 1, floor((layer / 4) * 3))`,
then decremented when `rand() < 0.2` and the index is positive. -/
noncomputable def glassMaterialIndex (w : Whorl) (r6 : ℝ) : ℤ :=
  let m0 : ℤ := min ((glassMaterialCount : ℤ) - 1)
    ⌊(w.layer : ℝ) / 4 * (glassMaterialCount : ℝ)⌋
  if r6 < 0.2 ∧ 0 < m0 then m0 - 1 else m0

/-- One petal of the glass `RoseBud` (loop body, lines 597-653); the seven PRNG
draws of the iteration are `rand k, …, rand (k+6)` in source order. -/
noncomputable def glassPetal (w : Whorl) (offset : ℝ) (i : ℕ) (rand : ℕ → ℝ) (k : ℕ) :
    PetalConfig :=
  let angle := glassAngle w offset i (rand k)
  let radiusVar := (w.radius : ℝ) * (0.92 + rand (k + 1) * 0.16)
  let heightVar := (w.height : ℝ) + (rand (k + 2) - 0.5) * 0.02
  let scaleVar := (w.scale : ℝ) * (0.9 + rand (k + 3) * 0.2)
  { position := ⟨Real.cos angle * radiusVar, heightVar, Real.sin angle * radiusVar⟩
    quat := glassFinalQuat w angle (rand (k + 4))
    scale := scaleVar
    geometryIndex := glassGeometryIndex w (rand (k + 5))
    materialIndex := glassMaterialIndex w (rand (k + 6))
    openness := (w.tilt : ℝ) }

/-- All petals of one glass whorl, consuming 7 draws per petal. -/
noncomputable def glassWhorlPetals (w : Whorl) (offset : ℝ) (rand : ℕ → ℝ) (k : ℕ) :
    List PetalConfig :=
  (List.range w.count).map fun i => glassPetal w offset i rand (k + 7 * i)

/-- The whorl fold of the glass `RoseBud`: the offset advances by `π / count`
before each whorl (line 595). -/
noncomputable def glassGenAux (rand : ℕ → ℝ) : List Whorl → ℝ → ℕ → List PetalConfig
  | [], _, _ => []
  | w :: ws, offset, k =>
    glassWhorlPetals w (offset + Real.pi / (w.count : ℝ)) rand k ++
      glassGenAux rand ws (offset + Real.pi / (w.count : ℝ)) (k + 7 * w.count)

/-- The full petal list of the glass `RoseBud`, seeded with `mulberry32(23)`. -/
noncomputable def glassRosePetals : List PetalConfig :=
  glassGenAux (mulberryR (some 23)) glassWhorls 0 0

/-! ### Continuous phyllotaxis engine (`SpiralRoseBud` in `MusicDownload.tsx`) -/

/-- The `goldenAngle = Math.PI * (3 - Math.sqrt(5))` (line 449). -/
noncomputable def goldenAngle : ℝ := Real.pi * (3 - Real.sqrt 5)

/-- The `totalPetals = 75` (line 450). -/
def spiralTotalPetals : ℕ := 75

/-- The `spiralPetalGeometries` holds 7 layers × 3 variants = 21 entries. -/
def spiralGeometryCount : ℕ := 21

/-- The `spiralPetalMaterials` holds 5 entries. -/
def spiralMaterialCount : ℕ := 5

/-- Normalized index `t = i / (totalPetals - 1)` (line 463). -/
noncomputable def spiralT (i : ℕ) : ℝ := (i : ℝ) / ((spiralTotalPetals : ℝ) - 1)

/-- Fermat-spiral base radius `sqrt(i / totalPetals) * 0.36` (line 467). -/
noncomputable def spiralRadiusOf (i : ℕ) : ℝ :=
  Real.sqrt ((i : ℝ) / (spiralTotalPetals : ℝ)) * 0.36

/-- Azimuth `angle = i * goldenAngle` (line 470). -/
noncomputable def spiralAngle (i : ℕ) : ℝ := (i : ℝ) * goldenAngle

/-- Jittered radius `spiralRadius * (0.95 + rand() * 0.1)` (line 473). -/
noncomputable def spiralPetalRadius (i : ℕ) (r0 : ℝ) : ℝ :=
  spiralRadiusOf i * (0.95 + r0 * 0.1)

/-- Height `0.28 * cos(t·π·0.5) - t * 0.12 + (rand() - 0.5) * 0.008` (lines 477-478). -/
noncomputable def spiralHeight (i : ℕ) (r1 : ℝ) : ℝ :=
  0.28 * Real.cos (spiralT i * Real.pi * 0.5) - spiralT i * 0.12 + (r1 - 0.5) * 0.008

/-- The tilt profile `tilt(t) = 0.05 + t^0.6 * 0.9` (line 484). -/
noncomputable def spiralTiltFun (t : ℝ) : ℝ := 0.05 + t ^ (0.6 : ℝ) * 0.9

/-- Tilt of petal `i`. -/
noncomputable def spiralTilt (i : ℕ) : ℝ := spiralTiltFun (spiralT i)

/-- Scale `(0.04 + t * 0.52) * (0.9 + rand() * 0.2)` (lines 487-488). -/
noncomputable def spiralScale (i : ℕ) (r2 : ℝ) : ℝ :=
  (0.04 + spiralT i * 0.52) * (0.9 + r2 * 0.2)

/-- Layer `min(6, floor(t * 7))` (line 491). -/
noncomputable def spiralLayer (i : ℕ) : ℤ := min 6 ⌊spiralT i * 7⌋

/-- The `petalDir` (lines 494-509): up/radial blend by tilt plus a tangential lean
`(1 - t) * 0.5` for inner petals, normalized. -/
noncomputable def spiralPetalDir (i : ℕ) : V3 :=
  let angle := spiralAngle i
  let radial : V3 := ⟨Real.cos angle, 0, Real.sin angle⟩
  let tangent : V3 := ⟨-Real.sin angle, 0, Real.cos angle⟩
  let upComponent := Real.cos (spiralTilt i * Real.pi * 0.5)
  let outComponent := Real.sin (spiralTilt i * Real.pi * 0.5)
  let leanFactor := (1 - spiralT i) * 0.5
  V3.normalize ⟨radial.x * outComponent + tangent.x * leanFactor, upComponent,
    radial.z * outComponent + tangent.z * leanFactor⟩

/-- The `baseQuat` (line 512). -/
noncomputable def spiralBaseQuat (i : ℕ) : Quaternion ℝ :=
  quatFromUnitVectors upV3 (spiralPetalDir i)

/-- Roll angle `angle + π + (1 - t) * 0.4 + (rand() - 0.5) * 0.08` (lines 517-518). -/
noncomputable def spiralRollAngle (i : ℕ) (r3 : ℝ) : ℝ :=
  spiralAngle i + Real.pi + (1 - spiralT i) * 0.4 + (r3 - 0.5) * 0.08

/-- The `rollQuat` (line 519). -/
noncomputable def spiralRollQuat (i : ℕ) (r3 : ℝ) : Quaternion ℝ :=
  quatAxisAngle (spiralPetalDir i) (spiralRollAngle i r3)

/-- The `inwardAxis = normalize(-tangent.z, 0, tangent.x)` (line 523). -/
noncomputable def spiralInwardAxis (i : ℕ) : V3 :=
  let angle := spiralAngle i
  let tangent : V3 := ⟨-Real.sin angle, 0, Real.cos angle⟩
  V3.normalize ⟨-tangent.z, 0, tangent.x⟩

/-- The `tiltQuat` (lines 522-524): inward tilt by `(1 - t) * 0.3` about `inwardAxis`. -/
noncomputable def spiralTiltQuat (i : ℕ) : Quaternion ℝ :=
  quatAxisAngle (spiralInwardAxis i) ((1 - spiralT i) * 0.3)

/-- The `finalQuat` (line 527):
`finalQuat.copy(rollQuat).multiply(baseQuat).premultiply(tiltQuat)`, i.e.
`tiltQuat * (rollQuat * baseQuat)`. -/
noncomputable def spiralFinalQuat (i : ℕ) (r3 : ℝ) : Quaternion ℝ :=
  spiralTiltQuat i * (spiralRollQuat i r3 * spiralBaseQuat i)

/-- Geometry selection (lines 531-534): `min(layer * 3 + floor(rand() * 3), 21 - 1)`. -/
noncomputable def spiralGeometryIndex (i : ℕ) (r4 : ℝ) : ℤ :=
  min (spiralLayer i * 3 + ⌊r4 * 3⌋) ((spiralGeometryCount : ℤ) - 1)

/-- Material selection (lines 536-539): `min(5 - 1, floor((layer / 6) * 5))`. -/
noncomputable def spiralMaterialIndex (i : ℕ) : ℤ :=
  min ((spiralMaterialCount : ℤ) - 1) ⌊(spiralLayer i : ℝ) / 6 * (spiralMaterialCount : ℝ)⌋

/-- One petal of `SpiralRoseBud` (loop body, lines 462-553); the five PRNG
draws of iteration `i` are `rand k, …, rand (k+4)` in source order
(radius, height, scale, roll, geometry). -/
noncomputable def spiralPetal (i : ℕ) (rand : ℕ → ℝ) (k : ℕ) : PetalConfig :=
  let angle := spiralAngle i
  let radius := spiralPetalRadius i (rand k)
  { position := ⟨Real.cos angle * radius, spiralHeight i (rand (k + 1)), Real.sin angle * radius⟩
    quat := spiralFinalQuat i (rand (k + 3))
    scale := spiralScale i (rand (k + 2))
    geometryIndex := spiralGeometryIndex i (rand (k + 4))
    materialIndex := spiralMaterialIndex i
    openness := spiralTilt i }

/-- The full petal list of `SpiralRoseBud`, seeded with `mulberry32(137)`. -/
noncomputable def spiralRosePetals : List PetalConfig :=
  (List.range spiralTotalPetals).map fun i => spiralPetal i (mulberryR (some 137)) (5 * i)

/-! ### Phyllotaxis engine of `src/unnamed/part_002` (`RoseBud`, lines 385-502) -/

/-- The `goldenAngle = Math.PI * (3 - Math.sqrt(5)) * 1.12` (line 389). -/
noncomputable def roseGoldenAngle : ℝ := Real.pi * (3 - Real.sqrt 5) * 1.12

/-- The `petalCount = 60` (line 388). -/
def roseBudPetalCount : ℕ := 60

/-- The `petalMaterials` of `part_002` holds 3 entries. -/
def roseBudMaterialCount : ℕ := 3

/-- Result of one iteration of the `RoseBud` petal loop: the emitted petal and
the index of the next unconsumed PRNG draw.  The number of draws taken by an
iteration depends on the degenerate-projection branch (lines 463-483), which
skips the roll-jitter draw, so the draw cursor must be threaded explicitly. -/
structure RoseStep where
  cfg : PetalConfig
  next : ℕ

/-- One iteration of the `RoseBud` loop (lines 407-500).  Draws are taken in
source order: angle (`rand k`), scale (`k+1`), outward (`k+2`), lifted
(`k+3`), material decrement (`k+4`) and, only in the non-degenerate roll
branch, roll jitter (`k+5`). -/
noncomputable def roseBudStep (rand : ℕ → ℝ) (i k : ℕ) : RoseStep :=
  let t := (i : ℝ) / ((roseBudPetalCount : ℝ) - 1)
  let openAmt := t ^ (1.18 : ℝ)
  let edge := max 0 ((t - 0.8) / 0.2)
  let spiral := (i : ℝ) * roseGoldenAngle
  let angle := spiral + (rand k - 0.5) * 0.12 + openAmt * 0.5
  let radius := 0.005 + t ^ (0.86 : ℝ) * 0.3
  let height := 0.15 - t ^ (0.94 : ℝ) * 0.33
  let scale := (0.18 + openAmt * 0.68) * (0.9 + rand (k + 1) * 0.12)
  let outward := radius + (rand (k + 2) - 0.5) * (0.012 + openAmt * 0.01) + edge * 0.02
  let lifted := height + (rand (k + 3) - 0.5) * 0.02 - edge * 0.02
  let geometryIndex : ℤ :=
    if edge > 0.5 then 3 else if openAmt > 0.62 then 2 else if openAmt > 0.28 then 1 else 0
  let mi0 : ℤ := min ((roseBudMaterialCount : ℤ) - 1) ⌊openAmt * (roseBudMaterialCount : ℝ)⌋
  let materialIndex : ℤ := if rand (k + 4) < 0.25 ∧ 0 < mi0 then mi0 - 1 else mi0
  let radial : V3 := ⟨Real.cos angle, 0, Real.sin angle⟩
  let tangent : V3 := ⟨-Real.sin angle, 0, Real.cos angle⟩
  let radialBias := -0.36 + openAmt * 1.18
  let upward := 1 - openAmt * 0.28
  let downAmt := openAmt * (0.08 + edge * 0.25)
  let petalDir := V3.normalize
    ⟨radial.x * radialBias, upward - downAmt, radial.z * radialBias⟩
  let baseQuat := quatFromUnitVectors upV3 petalDir
  let desiredRight := V3.normalize (V3.lerp tangent radial (0.2 + openAmt * 0.6))
  let currentRight := quatApplyV3 baseQuat ⟨1, 0, 0⟩
  let projectedCurrent :=
    currentRight.add (V3.smul (-(currentRight.dot petalDir)) petalDir)
  let projectedDesired :=
    desiredRight.add (V3.smul (-(desiredRight.dot petalDir)) petalDir)
  let position : V3 := ⟨Real.cos angle * outward, lifted, Real.sin angle * outward⟩
  if projectedCurrent.lengthSq < 1e-6 ∨ projectedDesired.lengthSq < 1e-6 then
    { cfg := { position := position
               quat := (1 : Quaternion ℝ) * baseQuat
               scale := scale
               geometryIndex := geometryIndex
               materialIndex := materialIndex
               openness := openAmt }
      next := k + 5 }
  else
    let pc := projectedCurrent.normalize
    let pd := projectedDesired.normalize
    let dotPC := clamp (pc.dot pd) (-1) 1
    let angleAcos := Real.arccos dotPC
    let angleSigned := if petalDir.dot (pc.cross pd) < 0 then -angleAcos else angleAcos
    let angleAround := angleSigned + (rand (k + 5) - 0.5) * (0.3 + openAmt * 0.6) + edge * 0.15
    { cfg := { position := position
               quat := quatAxisAngle petalDir angleAround * baseQuat
               scale := scale
               geometryIndex := geometryIndex
               materialIndex := materialIndex
               openness := openAmt }
      next := k + 6 }

/-- The `RoseBud` loop: `n` remaining iterations starting at petal `i` with
draw cursor `k`. -/
noncomputable def roseBudAux (rand : ℕ → ℝ) : ℕ → ℕ → ℕ → List PetalConfig
  | 0, _, _ => []
  | n + 1, i, k =>
    (roseBudStep rand i k).cfg :: roseBudAux rand n (i + 1) (roseBudStep rand i k).next

/-- The full petal list of the `part_002` `RoseBud` as a function of the PRNG
seed (the source passes the literal seed 23 to `mulberry32`). -/
noncomputable def roseBudPetals (seed : JSNum) : List PetalConfig :=
  roseBudAux (mulberryR seed) roseBudPetalCount 0 0

/-! ### Petal shape lookup (`createRealisticPetalGeometry`, `part_000`) -/

/-- The `(widthScale, heightScale, notchDepth)` parameters of
`createRealisticPetalShape(layer)` (lines 117-119); they determine the whole
outline. -/
def createRealisticPetalShape (layer : ℚ) : ℚ × ℚ × ℚ :=
  (0.7 + layer * 0.2, 1.05 - layer * 0.08, 0.015 + layer * 0.025)

/-- The `realisticPetalShapes = [shape(0), …, shape(4)]` (lines 164-170). -/
def realisticPetalShapes : List (ℚ × ℚ × ℚ) :=
  [createRealisticPetalShape 0, createRealisticPetalShape 1, createRealisticPetalShape 2,
    createRealisticPetalShape 3, createRealisticPetalShape 4]

/-- The `shapeIndex = Math.min(layer, realisticPetalShapes.length - 1)` (line 173).
There is no lower clamp in the source. -/
def realisticShapeIndex (layer : ℤ) : ℤ :=
  min layer ((realisticPetalShapes.length : ℤ) - 1)

/-- JavaScript array indexing: a negative or out-of-range index reads
`undefined`, modelled as `none`. -/
def jsArrayGet (l : List (ℚ × ℚ × ℚ)) (i : ℤ) : Option (ℚ × ℚ × ℚ) :=
  if i < 0 then none else l.get? i.toNat

/-! ### Petal deformation kernel (`createRealisticPetalGeometry`, lines 205-253)

Division and `Math.pow` are the only operations in the kernel that can turn
finite inputs into non-finite outputs (`NaN`/`±Infinity`); they are modelled
as `Option`-valued, every other JavaScript arithmetic operation on finite
doubles stays finite and is modelled by total real arithmetic. -/

/-- JavaScript division, `none` when the divisor is zero (the result would be
`NaN` or `±Infinity`). -/
noncomputable def jsDiv (a b : ℝ) : Option ℝ := if b = 0 then none else some (a / b)

open Classical in
/-- JavaScript `Math.pow`, `none` for a negative base with a non-integer
exponent (the result would be `NaN`); otherwise the real power. -/
noncomputable def jsPow (x e : ℝ) : Option ℝ :=
  if x < 0 ∧ ¬∃ n : ℤ, (n : ℝ) = e then none else some (x ^ e)

/-- Deformation parameters of the kernel (lines 194-203); the claim quantifies
over all finite parameter values, so they are arbitrary reals here. -/
structure DeformParams where
  cup : ℝ
  backwardCurl : ℝ
  edgeCurl : ℝ
  ruffle : ℝ
  pinch : ℝ
  twist : ℝ
  variantOffset : ℝ

/-- Minimum of `f` over the vertices, 0 for an empty mesh
(`computeBoundingBox`; the value for the empty mesh is irrelevant because the
vertex loop is empty then). -/
noncomputable def boundsMin (f : V3 → ℝ) : List V3 → ℝ
  | [] => 0
  | v :: r => r.foldl (fun a u => min a (f u)) (f v)

/-- Maximum of `f` over the vertices, 0 for an empty mesh. -/
noncomputable def boundsMax (f : V3 → ℝ) : List V3 → ℝ
  | [] => 0
  | v :: r => r.foldl (fun a u => max a (f u)) (f v)

/-- The per-vertex deformation body (lines 205-241): base pinch, then the
summed `z` displacements (cup, edge curl, backward curl, ruffle), then the
twist rotation of `(x, z)`. -/
noncomputable def deformVertex (p : DeformParams) (minY height halfWidth : ℝ) (v : V3) :
    Option V3 := do
  let y01 ← if height > 0 then jsDiv (v.y - minY) height else pure 0
  let e0 ← jsDiv |v.x| halfWidth
  let edge := clamp e0 0 1
  let center := 1 - edge
  let q ← jsDiv y01 0.3
  let basePinch := 1 - (1 - min q 1) * p.pinch
  let x1 := v.x * basePinch
  let cupCurve := Real.sin (y01 * Real.pi * 0.7) * center * p.cup
  let ec ← jsPow edge 1.8
  let edgeCurlAmount := ec * p.edgeCurl * (0.8 + Real.sin (y01 * Real.pi) * 0.4)
  let bc ← jsPow (max 0 (y01 - 0.3)) 2
  let backCurl := bc * p.backwardCurl * (0.6 + center * 0.4)
  let rt ← jsPow y01 0.5
  let ruffleWave :=
    Real.sin (y01 * Real.pi * 5 + edge * Real.pi * 3 + p.variantOffset * 2) *
      p.ruffle * edge * rt
  let z1 := v.z + cupCurve - edgeCurlAmount - backCurl + ruffleWave
  let twistAngle := (y01 - 0.25) * p.twist * (1 + p.variantOffset * 0.2)
  pure ⟨x1 * Real.cos twistAngle - z1 * Real.sin twistAngle, v.y,
    x1 * Real.sin twistAngle + z1 * Real.cos twistAngle⟩

/-- The full deformation pass (lines 185-250): bounding box, per-vertex loop,
then the recentering translation. -/
noncomputable def deformMesh (p : DeformParams) (vs : List V3) : Option (List V3) := do
  let height := boundsMax V3.y vs - boundsMin V3.y vs
  let m := max |boundsMin V3.x vs| |boundsMax V3.x vs|
  let halfWidth := if m = 0 then 1 else m
  let out ← vs.mapM (deformVertex p (boundsMin V3.y vs) height halfWidth)
  let cx := (boundsMin V3.x out + boundsMax V3.x out) * 0.5
  let cz := (boundsMin V3.z out + boundsMax V3.z out) * 0.5
  let my := boundsMin V3.y out
  pure (out.map fun v => ⟨v.x - cx, v.y - my, v.z - cz⟩)

/-! ### Stem organ attachment (`RealisticStemAssembly` in `part_000`,
`StemAssembly` in `part_002`)

The curve point and frame `(tangent, normal)` sampled from the Catmull-Rom
spline are inputs here; the claim is about the per-attachment computation
(lines 650-661 of `part_000`, 674-692 of `part_002`), which both files perform
with the same shape and different weights, so the weights are parameters. -/

/-- The `direction = (tangent * leanW + (normal * side) * outW).normalize()`. -/
noncomputable def leafDirection (tangent normal : V3) (side leanW outW : ℝ) : V3 :=
  V3.normalize ((V3.smul leanW tangent).add (V3.smul outW (V3.smul side normal)))

/-- The orientation computed by the source:
`quaternion.setFromUnitVectors(up, direction)` followed by
`quaternion.multiply(setFromAxisAngle(direction, roll))`, i.e. the roll
quaternion is multiplied on the right of the base rotation. -/
noncomputable def leafOrientation (tangent normal : V3) (side roll leanW outW : ℝ) :
    Quaternion ℝ :=
  quatFromUnitVectors upV3 (leafDirection tangent normal side leanW outW) *
    quatAxisAngle (leafDirection tangent normal side leanW outW) roll

/-- Modelled from the spec wording of §4.4: the orientation rotates up onto
the direction and is then followed by a roll about the direction, i.e. the
roll quaternion is applied after (multiplied on the left of) the base
rotation.  This is the reading the claim asserts; it is compared against
`leafOrientation`, which is what the source computes. -/
noncomputable def specLeafOrientation (tangent normal : V3) (side roll leanW outW : ℝ) :
    Quaternion ℝ :=
  quatAxisAngle (leafDirection tangent normal side leanW outW) roll *
    quatFromUnitVectors upV3 (leafDirection tangent normal side leanW outW)

/-- The `position = point + normal * (side * lateralOffset)` (line 661). -/
noncomputable def leafPosition (point normal : V3) (side offset : ℝ) : V3 :=
  point.add (V3.smul (side * offset) normal)

/-- Both variant indices of a petal lie inside their pools. -/
def VariantBounds (gCount mCount : ℕ) (cfg : PetalConfig) : Prop :=
  0 ≤ cfg.geometryIndex ∧ cfg.geometryIndex < (gCount : ℤ) ∧
    0 ≤ cfg.materialIndex ∧ cfg.materialIndex < (mCount : ℤ)

/-! ### Claim theorems -/

theorem mulberryOut_lt (p : ℕ) : mulberryOut p < 2 ^ 32 := by
  simp only [mulberryOut]
  exact Nat.mod_lt _ (by norm_num)

theorem mulberryBody_eq (p : ℕ) :
    ∃ u : ℕ, u < 2 ^ 32 ∧ mulberryBody p = (u : ℚ) / 2 ^ 32 := by
  exact ⟨mulberryOut p, mulberryOut_lt p, by norm_num [mulberryBody]⟩

theorem mulberry32_nonneg (seed : JSNum) (n : ℕ) : 0 ≤ mulberry32 seed n := by
  obtain ⟨u, -, hu⟩ := mulberryBody_eq (jsToUint32 (Option.map (fun t => t + (n + 1) * 0x6d2b79f5) seed))
  rw [mulberry32, hu]
  positivity

theorem mulberry32_lt_one (seed : JSNum) (n : ℕ) : mulberry32 seed n < 1 := by
  obtain ⟨u, hlt, hu⟩ := mulberryBody_eq (jsToUint32 (Option.map (fun t => t + (n + 1) * 0x6d2b79f5) seed))
  rw [mulberry32, hu, div_lt_one (by norm_num)]
  exact_mod_cast hlt

theorem mulberryR_nonneg (seed : JSNum) (n : ℕ) : 0 ≤ mulberryR seed n := by
  unfold mulberryR
  exact_mod_cast mulberry32_nonneg seed n

theorem mulberryR_lt_one (seed : JSNum) (n : ℕ) : mulberryR seed n < 1 := by
  unfold mulberryR
  exact_mod_cast mulberry32_lt_one seed n

theorem quatNormalize_ne_zero (q : Quaternion ℝ) : quatNormalize q ≠ 0 := by
  unfold quatNormalize
  split
  · intro h
    have := congrArg Quaternion.re h
    simp at this
  · intro h
    rename_i hl
    have hq : q ≠ 0 := by
      intro hq0
      apply hl
      simp [hq0, quatLength]
    have := congrArg (fun x => quatLength q • x) h
    simp only [smul_smul, smul_zero] at this
    rw [mul_one_div, div_self hl, one_smul] at this
    exact hq this

theorem quatFromUnitVectors_ne_zero (vFrom vTo : V3) :
    quatFromUnitVectors vFrom vTo ≠ 0 := quatNormalize_ne_zero _

/-- A `setFromAxisAngle` quaternion with a nonzero axis is nonzero. -/
theorem quatAxisAngle_ne_zero (axis : V3) (angle : ℝ)
    (h : axis.x ≠ 0 ∨ axis.y ≠ 0 ∨ axis.z ≠ 0) : quatAxisAngle axis angle ≠ 0 := by
  intro h0
  have hre := congrArg Quaternion.re h0
  have hi := congrArg Quaternion.imI h0
  have hj := congrArg Quaternion.imJ h0
  have hk := congrArg Quaternion.imK h0
  simp only [quatAxisAngle, Quaternion.zero_re, Quaternion.zero_imI, Quaternion.zero_imJ,
    Quaternion.zero_imK] at hre hi hj hk
  have hs : Real.sin (angle / 2) ≠ 0 := by
    intro hs0
    have := Real.sin_sq_add_cos_sq (angle / 2)
    rw [hs0, hre] at this
    norm_num at this
  rcases h with hx | hy | hz
  · exact hx (by
      have := mul_eq_zero.mp hi
      tauto)
  · exact hy (by
      have := mul_eq_zero.mp hj
      tauto)
  · exact hz (by
      have := mul_eq_zero.mp hk
      tauto)

/-- Normalizing a vector with a nonzero component keeps it nonzero
(`THREE` either divides by the positive length or leaves the vector alone). -/
theorem v3_normalize_ne_zero (v : V3) (h : v.x ≠ 0 ∨ v.y ≠ 0 ∨ v.z ≠ 0) :
    (V3.normalize v).x ≠ 0 ∨ (V3.normalize v).y ≠ 0 ∨ (V3.normalize v).z ≠ 0 := by
  have hscale : (1 : ℝ) / (if v.length = 0 then 1 else v.length) ≠ 0 := by
    split
    · norm_num
    · rename_i hl
      exact one_div_ne_zero hl
  unfold V3.normalize V3.smul
  rcases h with hx | hy | hz
  · exact Or.inl (mul_ne_zero hscale hx)
  · exact Or.inr (Or.inl (mul_ne_zero hscale hy))
  · exact Or.inr (Or.inr (mul_ne_zero hscale hz))

theorem roseBudAux_length (rand : ℕ → ℝ) (n i k : ℕ) :
    (roseBudAux rand n i k).length = n := by
  induction n generalizing i k with
  | zero => rfl
  | succ m ih => simp [roseBudAux, ih]

/-- Claim C10: for every JavaScript-number seed (finite or not, integer or
not) and every draw index, the mulberry32 value is a 32-bit unsigned integer
divided by `2^32`, hence lies in `[0, 1)`. -/
theorem C10_mulberry32_range (seed : JSNum) (n : ℕ) :
    (∃ u : ℕ, u < 2 ^ 32 ∧ mulberry32 seed n = (u : ℚ) / 2 ^ 32) ∧
    0 ≤ mulberry32 seed n ∧ mulberry32 seed n < 1 :=
  ⟨mulberryBody_eq _, mulberry32_nonneg seed n, mulberry32_lt_one seed n⟩

/-- Claim C9, counterexample: a malformed (`NaN`/`Infinity`) seed is not
rejected anywhere — `mulberry32` absorbs it through the `ToUint32` coercions
(its first draw is the well-defined value 0) and the `RoseBud` generation of
`part_002` runs to completion, emitting all 60 petals. -/
theorem C9_counterexample :
    mulberry32 none 0 = 0 ∧ (roseBudPetals none).length = roseBudPetalCount :=
  ⟨by norm_num [mulberry32, mulberryBody, mulberryOut, jsToUint32, imul32],
    roseBudAux_length _ _ _ _⟩

/-- Claim C9, amended: there is no seed validation at the API boundary; every
`JSNum` seed, malformed or not, is accepted, the PRNG still produces draws in
`[0, 1)`, and generation always completes with the full petal list, so no
input causes a hard failure. -/
theorem C9_no_rejection (seed : JSNum) :
    (roseBudPetals seed).length = roseBudPetalCount ∧
    ∀ n, 0 ≤ mulberry32 seed n ∧ mulberry32 seed n < 1 :=
  ⟨roseBudAux_length _ _ _ _, fun n => ⟨mulberry32_nonneg seed n, mulberry32_lt_one seed n⟩⟩

/-- Claim C5: layout generation is deterministic — two runs of the `part_002`
`RoseBud` generation with the same seed (the configuration is the fixed
constant table baked into the function) produce identical petal-instance
lists; the generation is a pure function of the seed, with the PRNG state
re-created from the seed on every run. -/
theorem C5_determinism (s₁ s₂ : JSNum) (h : s₁ = s₂) :
    roseBudPetals s₁ = roseBudPetals s₂ := by rw [h]

theorem C5_determinism_witness : roseBudPetals (some 23) = roseBudPetals (some 23) :=
  C5_determinism (some 23) (some 23) rfl

/-- Claim C7, counterexample: the source clamps the layer only from above
(`Math.min(layer, length - 1)`, line 173).  For `layerIndex = -1` the index
used is `-1`, not `max 0 (min (-1) (length - 1)) = 0` as the claim states,
and the array lookup at `-1` reads outside the shape array (JavaScript
`undefined`). -/
theorem C7_counterexample :
    realisticShapeIndex (-1) = -1 ∧
    realisticShapeIndex (-1) ≠ max 0 (min (-1) ((realisticPetalShapes.length : ℤ) - 1)) ∧
    jsArrayGet realisticPetalShapes (realisticShapeIndex (-1)) = none := by
  refine ⟨?_, ?_, ?_⟩ <;> decide

/-- Claim C7, amended: the shape lookup index is clamped only from above, to
`layerCount - 1`; for every non-negative `layerIndex` (which includes every
value the source passes) the index used is `min layerIndex (layerCount - 1)`,
lies inside `[0, layerCount - 1]`, and the lookup stays inside the shape
array.  Negative layer indices are not clamped. -/
theorem C7_shape_clamp (layer : ℤ) (h : 0 ≤ layer) :
    realisticShapeIndex layer = min layer ((realisticPetalShapes.length : ℤ) - 1) ∧
    0 ≤ realisticShapeIndex layer ∧
    realisticShapeIndex layer ≤ (realisticPetalShapes.length : ℤ) - 1 ∧
    (jsArrayGet realisticPetalShapes (realisticShapeIndex layer)).isSome = true := by
  have hlen : realisticPetalShapes.length = 5 := by decide
  refine ⟨rfl, ?_, min_le_right _ _, ?_⟩
  · exact le_min h (by simp [hlen])
  · have h0 : 0 ≤ realisticShapeIndex layer := le_min h (by simp [hlen])
    have h4 : realisticShapeIndex layer ≤ 4 := by
      have hm := min_le_right layer ((realisticPetalShapes.length : ℤ) - 1)
      rw [hlen] at hm
      exact_mod_cast hm
    have hne : ¬realisticShapeIndex layer < 0 := not_lt.mpr h0
    have hnat : (realisticShapeIndex layer).toNat < realisticPetalShapes.length := by
      rw [hlen]
      omega
    simp [jsArrayGet, hne, List.getElem?_eq_getElem hnat]

theorem C7_shape_clamp_witness :
    realisticShapeIndex 7 = min 7 ((realisticPetalShapes.length : ℤ) - 1) ∧
    0 ≤ realisticShapeIndex 7 ∧
    realisticShapeIndex 7 ≤ (realisticPetalShapes.length : ℤ) - 1 ∧
    (jsArrayGet realisticPetalShapes (realisticShapeIndex 7)).isSome = true :=
  C7_shape_clamp 7 (by decide)

theorem spiralT_zero : spiralT 0 = 0 := by simp [spiralT]

theorem spiralTilt_zero : spiralTilt 0 = 0.05 := by
  rw [spiralTilt, spiralT_zero, spiralTiltFun, Real.zero_rpow (by norm_num)]
  norm_num

theorem spiralTilt_last : spiralTilt 74 = 0.95 := by
  have ht : spiralT 74 = 1 := by
    rw [spiralT, spiralTotalPetals]
    norm_num
  rw [spiralTilt, ht, spiralTiltFun, Real.one_rpow]
  norm_num

/-- Claim C2: in the 75-petal phyllotaxis layout of `SpiralRoseBud` the
azimuth of petal `i` is exactly `i · π(3 - √5)`; petal 1 has azimuth within
`10^-4` of 2.39996 (and the value is below `2π`, so it is its own residue
mod `2π`); petal 0 has radius exactly 0 (for any jitter draw) and tilt
exactly 0.05; petal 74 has tilt exactly 0.95. -/
theorem C2_goldenAngle_scenario :
    (∀ i : ℕ, spiralAngle i = (i : ℝ) * (Real.pi * (3 - Real.sqrt 5))) ∧
    |spiralAngle 1 - 2.39996| < 1e-4 ∧
    spiralAngle 1 < 2 * Real.pi ∧
    (∀ r0 : ℝ, spiralPetalRadius 0 r0 = 0) ∧
    spiralTilt 0 = 0.05 ∧
    spiralTilt 74 = 0.95 := by
  have h5l : (2.236067 : ℝ) < Real.sqrt 5 := by
    rw [show (5 : ℝ) = 5 from rfl] at *
    have := Real.lt_sqrt (y := 5) (show (0 : ℝ) ≤ 2.236067 by norm_num)
    rw [this]
    norm_num
  have h5u : Real.sqrt 5 < 2.236068 := by
    have := Real.sqrt_lt' (x := 5) (show (0 : ℝ) < 2.236068 by norm_num)
    rw [this]
    norm_num
  have hπl := Real.pi_gt_d6
  have hπu := Real.pi_lt_d6
  refine ⟨fun i => rfl, ?_, ?_, ?_, ?_, ?_⟩
  · have h1 : spiralAngle 1 = Real.pi * (3 - Real.sqrt 5) := by
      simp [spiralAngle, goldenAngle]
    rw [h1, abs_lt]
    constructor <;> nlinarith
  · have h1 : spiralAngle 1 = Real.pi * (3 - Real.sqrt 5) := by
      simp [spiralAngle, goldenAngle]
    rw [h1]
    nlinarith
  · intro r0
    simp [spiralPetalRadius, spiralRadiusOf]
  · exact spiralTilt_zero
  · exact spiralTilt_last

theorem realisticGeometryIndex_bounds (w : Whorl) (r : ℝ) (hr : 0 ≤ r) :
    0 ≤ realisticGeometryIndex w r ∧ realisticGeometryIndex w r < (realisticGeometryCount : ℤ) := by
  unfold realisticGeometryIndex
  constructor
  · refine le_min (add_nonneg (by positivity) (Int.floor_nonneg.mpr (by positivity))) ?_
    norm_num [realisticGeometryCount]
  · exact lt_of_le_of_lt (min_le_right _ _) (by norm_num)

theorem realisticMaterialIndex_bounds (w : Whorl) :
    0 ≤ realisticMaterialIndex w ∧ realisticMaterialIndex w < (realisticMaterialCount : ℤ) := by
  unfold realisticMaterialIndex
  constructor
  · exact le_min (by norm_num [realisticMaterialCount]) (Int.floor_nonneg.mpr (by positivity))
  · exact lt_of_le_of_lt (min_le_left _ _) (by norm_num)

theorem glassGeometryIndex_bounds (w : Whorl) (r : ℝ) (hr : 0 ≤ r) :
    0 ≤ glassGeometryIndex w r ∧ glassGeometryIndex w r < (glassGeometryCount : ℤ) := by
  unfold glassGeometryIndex
  constructor
  · refine le_min (add_nonneg (by positivity) (Int.floor_nonneg.mpr (by positivity))) ?_
    norm_num [glassGeometryCount]
  · exact lt_of_le_of_lt (min_le_right _ _) (by norm_num)

theorem glassMaterialIndex_bounds (w : Whorl) (r : ℝ) :
    0 ≤ glassMaterialIndex w r ∧ glassMaterialIndex w r < (glassMaterialCount : ℤ) := by
  have h0 : (0 : ℤ) ≤ min ((glassMaterialCount : ℤ) - 1)
      ⌊(w.layer : ℝ) / 4 * (glassMaterialCount : ℝ)⌋ :=
    le_min (by norm_num [glassMaterialCount]) (Int.floor_nonneg.mpr (by positivity))
  have h2 : min ((glassMaterialCount : ℤ) - 1)
      ⌊(w.layer : ℝ) / 4 * (glassMaterialCount : ℝ)⌋ ≤ (glassMaterialCount : ℤ) - 1 :=
    min_le_left _ _
  by_cases hc : r < 0.2 ∧ 0 < min ((glassMaterialCount : ℤ) - 1)
      ⌊(w.layer : ℝ) / 4 * (glassMaterialCount : ℝ)⌋
  · simp only [glassMaterialIndex]
    rw [if_pos hc]
    omega
  · simp only [glassMaterialIndex]
    rw [if_neg hc]
    omega

theorem realisticPetal_bounds (w : Whorl) (offset : ℝ) (i : ℕ) (rand : ℕ → ℝ)
    (hr : ∀ n, 0 ≤ rand n) (k : ℕ) :
    VariantBounds realisticGeometryCount realisticMaterialCount
      (realisticPetal w offset i rand k) := by
  obtain ⟨hg0, hg1⟩ := realisticGeometryIndex_bounds w (rand (k + 5)) (hr _)
  obtain ⟨hm0, hm1⟩ := realisticMaterialIndex_bounds w
  exact ⟨hg0, hg1, hm0, hm1⟩

theorem glassPetal_bounds (w : Whorl) (offset : ℝ) (i : ℕ) (rand : ℕ → ℝ)
    (hr : ∀ n, 0 ≤ rand n) (k : ℕ) :
    VariantBounds glassGeometryCount glassMaterialCount (glassPetal w offset i rand k) := by
  obtain ⟨hg0, hg1⟩ := glassGeometryIndex_bounds w (rand (k + 5)) (hr _)
  obtain ⟨hm0, hm1⟩ := glassMaterialIndex_bounds w (rand (k + 6))
  exact ⟨hg0, hg1, hm0, hm1⟩

theorem realisticGenAux_bounds (rand : ℕ → ℝ) (hr : ∀ n, 0 ≤ rand n) (ws : List Whorl) :
    ∀ (offset : ℝ) (k : ℕ), ∀ cfg ∈ realisticGenAux rand ws offset k,
      VariantBounds realisticGeometryCount realisticMaterialCount cfg := by
  induction ws with
  | nil => intro offset k cfg h; simp [realisticGenAux] at h
  | cons w ws ih =>
    intro offset k cfg h
    rw [realisticGenAux, List.mem_append] at h
    rcases h with h | h
    · rw [realisticWhorlPetals, List.mem_map] at h
      obtain ⟨i, -, rfl⟩ := h
      exact realisticPetal_bounds w _ i rand hr _
    · exact ih _ _ cfg h

theorem glassGenAux_bounds (rand : ℕ → ℝ) (hr : ∀ n, 0 ≤ rand n) (ws : List Whorl) :
    ∀ (offset : ℝ) (k : ℕ), ∀ cfg ∈ glassGenAux rand ws offset k,
      VariantBounds glassGeometryCount glassMaterialCount cfg := by
  induction ws with
  | nil => intro offset k cfg h; simp [glassGenAux] at h
  | cons w ws ih =>
    intro offset k cfg h
    rw [glassGenAux, List.mem_append] at h
    rcases h with h | h
    · rw [glassWhorlPetals, List.mem_map] at h
      obtain ⟨i, -, rfl⟩ := h
      exact glassPetal_bounds w _ i rand hr _
    · exact ih _ _ cfg h

/-- Claim C3: every petal instance emitted by the whorl engines has its
geometry variant index in `[0, 24)` resp. `[0, 15)` and its material variant
index in `[0, 5)` resp. `[0, 3)` — the sizes of the corresponding precomputed
pools — and the selection clamp maps a candidate index of `poolSize + 5`
(layer 7 with floor draw 1 gives `7·4 + 1 = 29`) to `poolSize - 1` instead of
erroring. -/
theorem C3_bounded_variant_ids :
    realisticRosePetals.Forall
      (VariantBounds realisticGeometryCount realisticMaterialCount) ∧
    glassRosePetals.Forall (VariantBounds glassGeometryCount glassMaterialCount) ∧
    ((7 : ℤ) * 4 + ⌊(0.25 : ℝ) * 4⌋ = (realisticGeometryCount : ℤ) + 5 ∧
      realisticGeometryIndex ⟨1, 0, 0, 0, 0, 7⟩ 0.25 = (realisticGeometryCount : ℤ) - 1) := by
  refine ⟨?_, ?_, ?_, ?_⟩
  · rw [List.forall_iff_forall_mem]
    exact realisticGenAux_bounds _ (fun n => mulberryR_nonneg _ n) _ _ _
  · rw [List.forall_iff_forall_mem]
    exact glassGenAux_bounds _ (fun n => mulberryR_nonneg _ n) _ _ _
  · norm_num [realisticGeometryCount]
  · norm_num [realisticGeometryIndex, realisticGeometryCount]

/-- Within one whorl every emitted petal stores `openness = whorl.tilt`. -/
theorem realisticWhorlPetals_openness (w : Whorl) (offset : ℝ) (rand : ℕ → ℝ) (k : ℕ) :
    (realisticWhorlPetals w offset rand k).map PetalConfig.openness =
      List.replicate w.count ((w.tilt : ℝ)) := by
  rw [List.eq_replicate_iff]
  constructor
  · simp [realisticWhorlPetals]
  · intro b hb
    rw [List.mem_map] at hb
    obtain ⟨cfg, hcfg, rfl⟩ := hb
    rw [realisticWhorlPetals, List.mem_map] at hcfg
    obtain ⟨i, -, rfl⟩ := hcfg
    rfl

theorem glassWhorlPetals_openness (w : Whorl) (offset : ℝ) (rand : ℕ → ℝ) (k : ℕ) :
    (glassWhorlPetals w offset rand k).map PetalConfig.openness =
      List.replicate w.count ((w.tilt : ℝ)) := by
  rw [List.eq_replicate_iff]
  constructor
  · simp [glassWhorlPetals]
  · intro b hb
    rw [List.mem_map] at hb
    obtain ⟨cfg, hcfg, rfl⟩ := hb
    rw [glassWhorlPetals, List.mem_map] at hcfg
    obtain ⟨i, -, rfl⟩ := hcfg
    rfl

theorem chain_le_replicate_append (n : ℕ) (hn : 0 < n) (a c : ℝ) (rest : List ℝ)
    (hac : a ≤ c) (hrest : List.Chain (· ≤ ·) c rest) :
    List.Chain (· ≤ ·) a (List.replicate n c ++ rest) := by
  induction n generalizing a with
  | zero => omega
  | succ m ih =>
    rw [List.replicate_succ, List.cons_append, List.chain_cons]
    refine ⟨hac, ?_⟩
    rcases Nat.eq_zero_or_pos m with hm | hm
    · simpa [hm] using hrest
    · exact ih hm c le_rfl

theorem chain'_of_chain {a : ℝ} {l : List ℝ} (h : List.Chain (· ≤ ·) a l) :
    List.Chain' (· ≤ ·) l := by
  cases l with
  | nil => trivial
  | cons b r => exact (List.chain_cons.mp h).2

/-- The openness column of the realistic whorl engine is chained by `≤`
whenever the whorl tilt table is. -/
theorem realisticGenAux_chain (rand : ℕ → ℝ) (ws : List Whorl) :
    ∀ (offset : ℝ) (k : ℕ) (a : ℝ), (∀ w ∈ ws, 0 < w.count) →
      List.Chain (· ≤ ·) a (ws.map fun w => ((w.tilt : ℝ))) →
      List.Chain (· ≤ ·) a ((realisticGenAux rand ws offset k).map PetalConfig.openness) := by
  induction ws with
  | nil => intro offset k a _ _; simp [realisticGenAux]
  | cons w ws ih =>
    intro offset k a hc hchain
    rw [List.map_cons, List.chain_cons] at hchain
    rw [realisticGenAux, List.map_append, realisticWhorlPetals_openness]
    exact chain_le_replicate_append w.count (hc w (by simp)) a _ _ hchain.1
      (ih _ _ _ (fun u hu => hc u (by simp [hu])) hchain.2)

theorem glassGenAux_chain (rand : ℕ → ℝ) (ws : List Whorl) :
    ∀ (offset : ℝ) (k : ℕ) (a : ℝ), (∀ w ∈ ws, 0 < w.count) →
      List.Chain (· ≤ ·) a (ws.map fun w => ((w.tilt : ℝ))) →
      List.Chain (· ≤ ·) a ((glassGenAux rand ws offset k).map PetalConfig.openness) := by
  induction ws with
  | nil => intro offset k a _ _; simp [glassGenAux]
  | cons w ws ih =>
    intro offset k a hc hchain
    rw [List.map_cons, List.chain_cons] at hchain
    rw [glassGenAux, List.map_append, glassWhorlPetals_openness]
    exact chain_le_replicate_append w.count (hc w (by simp)) a _ _ hchain.1
      (ih _ _ _ (fun u hu => hc u (by simp [hu])) hchain.2)

/-- Claim C4: for both whorl engines the `openness` of the emitted petal
instances is non-decreasing along the emission order (whorls are emitted in
table order, inner to outer), and for the spiral engine the tilt profile
`tilt(t) = 0.05 + t^0.6 · 0.9` is non-decreasing in `t` on `[0, ∞)`, in
particular on `[0, 1]`. -/
theorem C4_monotone_openness :
    List.Chain' (· ≤ ·) (realisticRosePetals.map PetalConfig.openness) ∧
    List.Chain' (· ≤ ·) (glassRosePetals.map PetalConfig.openness) ∧
    ∀ t₁ t₂ : ℝ, 0 ≤ t₁ → t₁ ≤ t₂ → spiralTiltFun t₁ ≤ spiralTiltFun t₂ := by
  refine ⟨?_, ?_, ?_⟩
  · refine chain'_of_chain (a := 0.08)
      (realisticGenAux_chain _ realisticWhorls 0 0 0.08 ?_ ?_)
    · intro w hw
      fin_cases hw <;> norm_num
    · simp only [realisticWhorls, List.map_cons, List.map_nil, List.chain_cons]
      norm_num
  · refine chain'_of_chain (a := 0.15)
      (glassGenAux_chain _ glassWhorls 0 0 0.15 ?_ ?_)
    · intro w hw
      fin_cases hw <;> norm_num
    · simp only [glassWhorls, List.map_cons, List.map_nil, List.chain_cons]
      norm_num
  · intro t₁ t₂ h1 h12
    unfold spiralTiltFun
    have := Real.rpow_le_rpow h1 h12 (by norm_num : (0 : ℝ) ≤ 0.6)
    nlinarith

theorem C4_monotone_openness_witness : spiralTiltFun 0 ≤ spiralTiltFun 1 :=
  C4_monotone_openness.2.2 0 1 le_rfl zero_le_one

/-- The petal direction of spiral petal 0 has a nonzero component (its `y`
component is `cos(0.025π) > 0` before normalization). -/
theorem spiralPetalDir_zero_ne : (spiralPetalDir 0).x ≠ 0 ∨ (spiralPetalDir 0).y ≠ 0 ∨
    (spiralPetalDir 0).z ≠ 0 := by
  have hy : 0 < Real.cos (spiralTilt 0 * Real.pi * 0.5) := by
    rw [spiralTilt_zero]
    refine Real.cos_pos_of_mem_Ioo ⟨?_, ?_⟩
    · nlinarith [Real.pi_gt_three]
    · nlinarith [Real.pi_gt_three]
  rw [spiralPetalDir]
  exact v3_normalize_ne_zero _ (Or.inr (Or.inl (ne_of_gt hy)))

/-- The inward-tilt axis of spiral petal 0 is `(-1, 0, 0)`. -/
theorem spiralInwardAxis_zero : (spiralInwardAxis 0).x = -1 := by
  have hangle : spiralAngle 0 = 0 := by simp [spiralAngle]
  rw [spiralInwardAxis, hangle]
  simp only [Real.cos_zero, Real.sin_zero, neg_zero]
  rw [V3.normalize, V3.length, V3.lengthSq]
  norm_num [V3.smul]

/-- Claim C1, counterexample: in the spiral engine (`SpiralRoseBud`) the final
quaternion of petal 0 (any jitter draw, here `1/2`) is not
`rollQuat * baseQuat`: line 527 premultiplies the additional inward-tilt
quaternion, and for petal 0 that tilt rotation is by `0.3` about `(-1,0,0)`,
which is not the identity. -/
theorem C1_counterexample :
    spiralFinalQuat 0 (1 / 2) ≠ spiralRollQuat 0 (1 / 2) * spiralBaseQuat 0 := by
  intro h
  have hB : spiralBaseQuat 0 ≠ 0 := quatFromUnitVectors_ne_zero _ _
  have hR : spiralRollQuat 0 (1 / 2) ≠ 0 :=
    quatAxisAngle_ne_zero _ _ spiralPetalDir_zero_ne
  have hRB : spiralRollQuat 0 (1 / 2) * spiralBaseQuat 0 ≠ 0 := mul_ne_zero hR hB
  have hT : spiralTiltQuat 0 = 1 := by
    have h1 : spiralTiltQuat 0 * (spiralRollQuat 0 (1 / 2) * spiralBaseQuat 0) =
        1 * (spiralRollQuat 0 (1 / 2) * spiralBaseQuat 0) := by
      rw [one_mul]
      exact h
    exact mul_right_cancel₀ hRB h1
  have himI := congrArg Quaternion.imI hT
  rw [spiralTiltQuat, spiralT_zero] at himI
  simp only [quatAxisAngle, Quaternion.one_imI] at himI
  rw [spiralInwardAxis_zero] at himI
  have hsin : 0 < Real.sin ((1 - 0) * 0.3 / 2) := by
    refine Real.sin_pos_of_pos_of_lt_pi (by norm_num) ?_
    nlinarith [Real.pi_gt_three]
  rw [mul_neg_one, neg_eq_zero] at himI
  exact (ne_of_gt hsin) himI

/-- Claim C1, amended: the whorl engines (`RealisticRoseBud` and the glass
`RoseBud`) compose the final orientation exactly as `rollQuat * baseQuat`
with no other factor; the spiral engine (`SpiralRoseBud`) composes
`tiltQuat * (rollQuat * baseQuat)`, premultiplying one additional inward-tilt
factor. -/
theorem C1_composition :
    (∀ (w : Whorl) (offset : ℝ) (i : ℕ) (rand : ℕ → ℝ) (k : ℕ),
      (realisticPetal w offset i rand k).quat =
        realisticRollQuat w (realisticAngle w offset i (rand k)) (rand (k + 4)) *
          realisticBaseQuat w (realisticAngle w offset i (rand k))) ∧
    (∀ (w : Whorl) (offset : ℝ) (i : ℕ) (rand : ℕ → ℝ) (k : ℕ),
      (glassPetal w offset i rand k).quat =
        glassRollQuat w (glassAngle w offset i (rand k)) (rand (k + 4)) *
          glassBaseQuat w (glassAngle w offset i (rand k))) ∧
    (∀ (i : ℕ) (rand : ℕ → ℝ) (k : ℕ),
      (spiralPetal i rand k).quat =
        spiralTiltQuat i * (spiralRollQuat i (rand (k + 3)) * spiralBaseQuat i)) :=
  ⟨fun _ _ _ _ _ => rfl, fun _ _ _ _ _ => rfl, fun _ _ _ => rfl⟩

theorem jsDiv_some (a b : ℝ) (hb : b ≠ 0) : jsDiv a b = some (a / b) := if_neg hb

theorem jsPow_some (x e : ℝ) (hx : 0 ≤ x) : jsPow x e = some (x ^ e) := by
  rw [jsPow, if_neg]
  rintro ⟨h1, -⟩
  linarith

theorem foldl_min_le (f : V3 → ℝ) (r : List V3) :
    ∀ a : ℝ, r.foldl (fun acc u => min acc (f u)) a ≤ a ∧
      ∀ u ∈ r, r.foldl (fun acc u => min acc (f u)) a ≤ f u := by
  induction r with
  | nil => intro a; exact ⟨le_rfl, by simp⟩
  | cons b r ih =>
    intro a
    rw [List.foldl_cons]
    refine ⟨le_trans (ih (min a (f b))).1 (min_le_left _ _), ?_⟩
    intro u hu
    rcases List.mem_cons.mp hu with rfl | hu
    · exact le_trans (ih (min a (f u))).1 (min_le_right _ _)
    · exact (ih (min a (f b))).2 u hu

theorem boundsMin_le (f : V3 → ℝ) (vs : List V3) (v : V3) (hv : v ∈ vs) :
    boundsMin f vs ≤ f v := by
  cases vs with
  | nil => cases hv
  | cons a r =>
    rw [boundsMin]
    rcases List.mem_cons.mp hv with rfl | hv
    · exact (foldl_min_le f r (f v)).1
    · exact (foldl_min_le f r (f a)).2 v hv

theorem mapM_isSome {α β : Type _} (f : α → Option β) :
    ∀ l : List α, (∀ a ∈ l, (f a).isSome = true) → ∃ out, l.mapM f = some out := by
  intro l
  induction l with
  | nil => intro _; exact ⟨[], rfl⟩
  | cons a l ih =>
    intro h
    obtain ⟨b, hb⟩ := Option.isSome_iff_exists.mp (h a (by simp))
    obtain ⟨out, hout⟩ := ih fun x hx => h x (by simp [hx])
    refine ⟨b :: out, ?_⟩
    rw [List.mapM_cons, hb, hout]
    rfl

theorem deformVertex_isSome (p : DeformParams) (minYv height halfWidth : ℝ) (v : V3)
    (hy : minYv ≤ v.y) (hw : halfWidth ≠ 0) :
    (deformVertex p minYv height halfWidth v).isSome = true := by
  have hcl : ∀ e0 : ℝ, 0 ≤ clamp e0 0 1 := fun e0 => le_max_left 0 _
  have h2 : jsDiv |v.x| halfWidth = some (|v.x| / halfWidth) := jsDiv_some _ _ hw
  have h4 : jsPow (clamp (|v.x| / halfWidth) 0 1) 1.8 =
      some (clamp (|v.x| / halfWidth) 0 1 ^ (1.8 : ℝ)) := jsPow_some _ _ (hcl _)
  by_cases hh : height > 0
  · have hy01 : 0 ≤ (v.y - minYv) / height := div_nonneg (by linarith) hh.le
    have h1 : jsDiv (v.y - minYv) height = some ((v.y - minYv) / height) :=
      jsDiv_some _ _ (ne_of_gt hh)
    have h3 : jsDiv ((v.y - minYv) / height) 0.3 =
        some ((v.y - minYv) / height / 0.3) := jsDiv_some _ _ (by norm_num)
    have h5 : jsPow (max 0 ((v.y - minYv) / height - 0.3)) 2 =
        some (max 0 ((v.y - minYv) / height - 0.3) ^ (2 : ℝ)) :=
      jsPow_some _ _ (le_max_left _ _)
    have h6 : jsPow ((v.y - minYv) / height) 0.5 =
        some (((v.y - minYv) / height) ^ (0.5 : ℝ)) := jsPow_some _ _ hy01
    simp only [deformVertex, if_pos hh, h1, h2, h3, h4, h5, h6, Option.bind_eq_bind,
      Option.some_bind, Option.pure_def, Option.isSome_some]
  · have h3 : jsDiv 0 0.3 = some (0 / 0.3) := jsDiv_some _ _ (by norm_num)
    have h5 : jsPow (max 0 ((0 : ℝ) - 0.3)) 2 = some (max 0 ((0 : ℝ) - 0.3) ^ (2 : ℝ)) :=
      jsPow_some _ _ (le_max_left _ _)
    have h6 : jsPow (0 : ℝ) 0.5 = some ((0 : ℝ) ^ (0.5 : ℝ)) := jsPow_some _ _ le_rfl
    simp only [deformVertex, if_neg hh, h2, h3, h4, h5, h6, Option.pure_def,
      Option.bind_eq_bind, Option.some_bind, Option.isSome_some]

/-- Claim C6: the petal deformation kernel never produces a non-finite
coordinate.  For every finite input mesh and every finite parameter set, all
the divisions and powers it performs are on safe operands (the height branch
and the `|| 1` half-width guard keep divisors nonzero; every `Math.pow` base
is non-negative), so the deformed mesh is defined (`some`), with finite real
coordinates throughout. -/
theorem C6_deform_no_nan (p : DeformParams) (vs : List V3) :
    ∃ out, deformMesh p vs = some out := by
  have hw : (if max |boundsMin V3.x vs| |boundsMax V3.x vs| = 0 then 1
      else max |boundsMin V3.x vs| |boundsMax V3.x vs|) ≠ 0 := by
    split
    · norm_num
    · assumption
  obtain ⟨out, hout⟩ := mapM_isSome
    (deformVertex p (boundsMin V3.y vs) (boundsMax V3.y vs - boundsMin V3.y vs)
      (if max |boundsMin V3.x vs| |boundsMax V3.x vs| = 0 then 1
        else max |boundsMin V3.x vs| |boundsMax V3.x vs|)) vs
    (fun v hv => deformVertex_isSome p _ _ _ v (boundsMin_le V3.y vs v hv) hw)
  refine ⟨out.map fun v => ⟨v.x - (boundsMin V3.x out + boundsMax V3.x out) * 0.5,
    v.y - boundsMin V3.y out, v.z - (boundsMin V3.z out + boundsMax V3.z out) * 0.5⟩, ?_⟩
  rw [deformMesh, hout]
  rfl

/-- Claim C8, counterexample: the claimed composition (roll applied after the
base rotation, `rollQuat * baseQuat`) disagrees with what the source computes
(`baseQuat * rollQuat`, the roll multiplied on the right).  Witnessed at the
frame `tangent = (0,0,1)`, `normal = (1,0,0)`, `sideSign = 1`,
`rollAngle = π` with the `part_000` weights `0.3`/`0.85`: the `imJ`
components of the two orientations are `-1/√2` and `1/√2`. -/
theorem C8_counterexample :
    leafOrientation ⟨0, 0, 1⟩ ⟨1, 0, 0⟩ 1 Real.pi 0.3 0.85 ≠
      specLeafOrientation ⟨0, 0, 1⟩ ⟨1, 0, 0⟩ 1 Real.pi 0.3 0.85 := by
  have hs0 : Real.sqrt 0.8125 ≠ 0 := Real.sqrt_ne_zero'.mpr (by norm_num)
  have hs2 : Real.sqrt 0.8125 ^ 2 = 0.8125 := Real.sq_sqrt (by norm_num)
  have hinner : (V3.smul 0.3 ⟨0, 0, 1⟩).add (V3.smul 0.85 (V3.smul 1 ⟨1, 0, 0⟩)) =
      (⟨0.85, 0, 0.3⟩ : V3) := by
    simp only [V3.smul, V3.add]
    norm_num
  have hlen : V3.length ⟨0.85, 0, 0.3⟩ = Real.sqrt 0.8125 := by
    rw [V3.length, V3.lengthSq]
    norm_num
  have hdir : leafDirection ⟨0, 0, 1⟩ ⟨1, 0, 0⟩ 1 0.3 0.85 =
      ⟨1 / Real.sqrt 0.8125 * 0.85, 1 / Real.sqrt 0.8125 * 0, 1 / Real.sqrt 0.8125 * 0.3⟩ := by
    rw [leafDirection, hinner, V3.normalize, hlen, if_neg hs0]
    rfl
  have hAC : (1 / Real.sqrt 0.8125 * 0.85) ^ 2 + (1 / Real.sqrt 0.8125 * 0.3) ^ 2 = 1 := by
    field_simp
    nlinarith [hs2]
  have harg : (if upV3.dot ⟨1 / Real.sqrt 0.8125 * 0.85, 1 / Real.sqrt 0.8125 * 0,
        1 / Real.sqrt 0.8125 * 0.3⟩ + 1 < numberEpsilon then
      (if |upV3.x| > |upV3.z| then ⟨0, -upV3.y, upV3.x, 0⟩ else ⟨0, 0, -upV3.z, upV3.y⟩)
    else
      ⟨upV3.dot ⟨1 / Real.sqrt 0.8125 * 0.85, 1 / Real.sqrt 0.8125 * 0,
          1 / Real.sqrt 0.8125 * 0.3⟩ + 1,
        (upV3.cross ⟨1 / Real.sqrt 0.8125 * 0.85, 1 / Real.sqrt 0.8125 * 0,
          1 / Real.sqrt 0.8125 * 0.3⟩).x,
        (upV3.cross ⟨1 / Real.sqrt 0.8125 * 0.85, 1 / Real.sqrt 0.8125 * 0,
          1 / Real.sqrt 0.8125 * 0.3⟩).y,
        (upV3.cross ⟨1 / Real.sqrt 0.8125 * 0.85, 1 / Real.sqrt 0.8125 * 0,
          1 / Real.sqrt 0.8125 * 0.3⟩).z⟩) =
      (⟨1, 1 / Real.sqrt 0.8125 * 0.3, 0, -(1 / Real.sqrt 0.8125 * 0.85)⟩ : Quaternion ℝ) := by
    have hd : upV3.dot ⟨1 / Real.sqrt 0.8125 * 0.85, 1 / Real.sqrt 0.8125 * 0,
        1 / Real.sqrt 0.8125 * 0.3⟩ = 0 := by
      simp [upV3, V3.dot]
    rw [if_neg (by rw [hd]; norm_num [numberEpsilon])]
    rw [hd]
    simp only [upV3, V3.cross]
    norm_num
  have hq0 : quatLength ⟨1, 1 / Real.sqrt 0.8125 * 0.3, 0,
      -(1 / Real.sqrt 0.8125 * 0.85)⟩ = Real.sqrt 2 := by
    rw [quatLength]
    congr 1
    nlinarith [hAC]
  have hB : quatFromUnitVectors upV3 ⟨1 / Real.sqrt 0.8125 * 0.85, 1 / Real.sqrt 0.8125 * 0,
      1 / Real.sqrt 0.8125 * 0.3⟩ =
      (1 / Real.sqrt 2) • (⟨1, 1 / Real.sqrt 0.8125 * 0.3, 0,
        -(1 / Real.sqrt 0.8125 * 0.85)⟩ : Quaternion ℝ) := by
    rw [quatFromUnitVectors, harg, quatNormalize, hq0,
      if_neg (Real.sqrt_ne_zero'.mpr (by norm_num))]
  have hR : quatAxisAngle ⟨1 / Real.sqrt 0.8125 * 0.85, 1 / Real.sqrt 0.8125 * 0,
      1 / Real.sqrt 0.8125 * 0.3⟩ Real.pi =
      (⟨0, 1 / Real.sqrt 0.8125 * 0.85, 0, 1 / Real.sqrt 0.8125 * 0.3⟩ : Quaternion ℝ) := by
    rw [quatAxisAngle]
    simp [Real.cos_pi_div_two, Real.sin_pi_div_two]
  intro h
  rw [leafOrientation, specLeafOrientation, hdir, hB, hR, smul_mul_assoc,
    mul_smul_comm] at h
  have hj := congrArg Quaternion.imJ h
  simp only [Quaternion.smul_imJ, smul_eq_mul, Quaternion.mul_imJ] at hj
  norm_num at hj
  have hX : (0 : ℝ) < Real.sqrt 16 / Real.sqrt 13 * (3 / 10) := by positivity
  nlinarith [hj, mul_pos hX hX]

/-- Claim C8, amended: for every organ attachment the direction and position
are exactly as the claim states — `direction = normalize(tangent·leanWeight +
(normal·sideSign)·outWeight)` and `position = point +
normal·sideSign·lateralOffset` — but the orientation composes the roll on the
right of the base rotation (`baseQuat * rollQuat`, a roll in the base's local
frame), not after it. -/
theorem C8_attachment_formulas (point tangent normal : V3)
    (side roll leanW outW offset : ℝ) :
    leafOrientation tangent normal side roll leanW outW =
      quatFromUnitVectors upV3 (leafDirection tangent normal side leanW outW) *
        quatAxisAngle (leafDirection tangent normal side leanW outW) roll ∧
    leafDirection tangent normal side leanW outW =
      V3.normalize ((V3.smul leanW tangent).add (V3.smul outW (V3.smul side normal))) ∧
    leafPosition point normal side offset = point.add (V3.smul (side * offset) normal) :=
  ⟨rfl, rfl, rfl⟩

end Rose
